import Mathlib

/-!
Shallow embedding of the Python program src/MichaelAI2.3.py, an
AmigaOS-style desktop chat client for a locally running Ollama server,
together with theorems that settle the specification claims about it.

Modelling conventions.  Pure logic is translated into Lean functions.
Python floats in this program only ever hold exact small decimals and
quotients by 1024, so they are modelled as Rat.  Calls into the outside
world (subprocess runs, HTTP requests, file reads) are modelled by
passing the observable outcome of each call as an explicit argument of
a small inductive type, and the stateful GUI is modelled as a state
record with one transition function per event handler.
-/

namespace MichaelAI

/-- Python str.strip() with no argument: trim whitespace at both ends.
Implemented over the character list so that proofs can evaluate it. -/
def pyStrip (s : String) : String :=
  String.mk (((s.data.dropWhile Char.isWhitespace).reverse.dropWhile
    Char.isWhitespace).reverse)

/-- Split a character list at every occurrence of sep, keeping empty
pieces, like Python str.split(sep) with an explicit separator. -/
def charSplitAux (sep : Char) (acc : List Char) : List Char → List String
  | [] => [String.mk acc.reverse]
  | c :: cs =>
    if c == sep then String.mk acc.reverse :: charSplitAux sep [] cs
    else charSplitAux sep (c :: acc) cs

/-- Python s.split(sep) for a one-character separator. -/
def pySplitChar (s : String) (sep : Char) : List String :=
  charSplitAux sep [] s.data

/-- Python str.split() with no argument: split on whitespace runs,
dropping empty pieces. -/
def splitWsAux (acc : List Char) : List Char → List String
  | [] => if acc.isEmpty then [] else [String.mk acc.reverse]
  | c :: cs =>
    if c.isWhitespace then
      if acc.isEmpty then splitWsAux [] cs
      else String.mk acc.reverse :: splitWsAux [] cs
    else splitWsAux (c :: acc) cs

/-- Python s.split() with no argument. -/
def pySplitWs (s : String) : List String := splitWsAux [] s.data

/-- Python str.isdigit() restricted to ASCII digits (the only digits the
scraped tool output contains): nonempty and all digits. -/
def pyIsDigit (s : String) : Bool := !s.data.isEmpty && s.data.all Char.isDigit

/-- Decimal value of a list of ASCII digits; none on a non-digit. -/
def digitsToNatAux (acc : Nat) : List Char → Option Nat
  | [] => some acc
  | c :: cs =>
    if c.isDigit then digitsToNatAux (acc * 10 + (c.toNat - 48)) cs else none

/-- Decimal value of a nonempty all-digit character list. -/
def digitsToNat (l : List Char) : Option Nat :=
  if l.isEmpty then none else digitsToNatAux 0 l

/-- Python int(s): strip whitespace, optional sign, decimal digits;
none when int() would raise ValueError. -/
def pyInt (s : String) : Option Int :=
  match (pyStrip s).data with
  | [] => none
  | c :: rest =>
    if c == '-' then (digitsToNat rest).map fun n => -(n : Int)
    else if c == '+' then (digitsToNat rest).map fun n => (n : Int)
    else (digitsToNat (c :: rest)).map fun n => (n : Int)

/-- One entry of the recommendation tables built in
get_recommended_models (name, size_gb, description). -/
structure ModelRec where
  name : String
  size_gb : Rat
  description : String
deriving DecidableEq

/-- The list built in the vram_gb >= 8 branch of get_recommended_models. -/
def high_vram_models : List ModelRec :=
  [⟨"llama2", 3.8, "Good balance of performance and quality"⟩,
   ⟨"mistral", 4.1, "Excellent for coding and reasoning"⟩,
   ⟨"codellama:13b", 7.3, "Specialized for programming"⟩]

/-- The list built in the vram_gb >= 4 branch of get_recommended_models. -/
def medium_vram_models : List ModelRec :=
  [⟨"llama2:7b", 3.8, "Standard 7B model"⟩,
   ⟨"gemma:7b", 4.8, "Google's efficient model"⟩,
   ⟨"mistral", 4.1, "Fast and capable"⟩]

/-- The list built in the (vram_gb > 0 or ram_gb >= 8) branch of
get_recommended_models. -/
def low_resource_models : List ModelRec :=
  [⟨"llama2:3b", 1.9, "Lightweight but capable"⟩,
   ⟨"gemma:2b", 1.6, "Very fast, minimal resources"⟩,
   ⟨"phi", 1.6, "Microsoft's small but smart model"⟩]

/-- The list built in the final else branch of get_recommended_models. -/
def minimal_models : List ModelRec :=
  [⟨"tinyllama", 0.5, "Smallest usable model"⟩,
   ⟨"phi:mini", 1.4, "Mini version of Phi"⟩,
   ⟨"gemma:2b", 1.6, "Efficient 2B model"⟩]

/-- get_recommended_models(vram_gb, ram_gb) from the source: an if/elif
chain over the VRAM and RAM thresholds, each branch extending the empty
recommendations list with a fixed table. -/
def get_recommended_models (vram_gb ram_gb : Rat) : List ModelRec :=
  if vram_gb ≥ 8 then high_vram_models
  else if vram_gb ≥ 4 then medium_vram_models
  else if vram_gb > 0 ∨ ram_gb ≥ 8 then low_resource_models
  else minimal_models

/-- The condition of the "No suitable models found for your system."
branch of install_recommended_models: the recommendation list is empty. -/
def no_suitable_models_branch (vram_gb ram_gb : Rat) : Bool :=
  (get_recommended_models vram_gb ram_gb).isEmpty

/-- C1: model-recommendation tier selection matches the VRAM thresholds:
the high-VRAM list when vram_gb >= 8, the medium list when
4 <= vram_gb < 8, the low-resource list when vram_gb < 4 and
(vram_gb > 0 or ram_gb >= 8), and the minimal list otherwise. -/
theorem get_recommended_models_tier_thresholds (v r : Rat) :
    (v ≥ 8 → get_recommended_models v r = high_vram_models) ∧
    (4 ≤ v → v < 8 → get_recommended_models v r = medium_vram_models) ∧
    (v < 4 → (v > 0 ∨ r ≥ 8) → get_recommended_models v r = low_resource_models) ∧
    (v ≤ 0 → r < 8 → get_recommended_models v r = minimal_models) := by
  refine ⟨?_, ?_, ?_, ?_⟩
  · intro h8
    unfold get_recommended_models
    rw [if_pos h8]
  · intro h4 h8
    unfold get_recommended_models
    rw [if_neg (not_le.mpr h8), if_pos h4]
  · intro h4 hor
    unfold get_recommended_models
    rw [if_neg (not_le.mpr (by linarith)), if_neg (not_le.mpr h4), if_pos hor]
  · intro hv hr
    unfold get_recommended_models
    rw [if_neg (not_le.mpr (by linarith)),
        if_neg (not_le.mpr (by linarith)),
        if_neg (by rintro (h | h) <;> linarith)]

/-- Witness for C1 at concrete inputs: a 10 GB VRAM system gets the
high-VRAM list and a 0 GB VRAM, 2 GB RAM system gets the minimal list. -/
theorem get_recommended_models_tier_thresholds_wit :
    get_recommended_models 10 4 = high_vram_models ∧
    get_recommended_models 0 2 = minimal_models := by
  constructor
  · exact (get_recommended_models_tier_thresholds 10 4).1 (by norm_num)
  · exact (get_recommended_models_tier_thresholds 0 2).2.2.2 (by norm_num) (by norm_num)

/-- C10: get_recommended_models returns exactly three entries for every
input, so the "No suitable models found for your system." branch of
install_recommended_models is unreachable. -/
theorem get_recommended_models_nonempty (v r : Rat) :
    (get_recommended_models v r).length = 3 ∧
    no_suitable_models_branch v r = false := by
  unfold no_suitable_models_branch get_recommended_models
  split_ifs <;> exact ⟨rfl, rfl⟩

/-- Observable outcome of one probe iteration of the wait loop in
start_ollama_server: the GET on /api/tags returned 200; it returned some
other status (the loop just moves on, no sleep); it raised ConnectionError
and process.poll() shows the child died; it raised ConnectionError with
the child still alive (1 second sleep, retry); or it raised some other
exception (1 second sleep, retry). -/
inductive ProbeOutcome where
  | ok200
  | badStatus
  | connErrProcDead
  | connErrProcAlive
  | otherExc
deriving DecidableEq

/-- Outcomes on which the loop body neither returns True nor returns
False but proceeds to the next attempt. -/
def ProbeOutcome.keepsWaiting : ProbeOutcome → Bool
  | .badStatus => true
  | .connErrProcAlive => true
  | .otherExc => true
  | _ => false

/-- Outcomes after which the loop body executes time.sleep(1). -/
def ProbeOutcome.sleepsOneSecond : ProbeOutcome → Bool
  | .connErrProcAlive => true
  | .otherExc => true
  | _ => false

/-- Result of the wait loop of start_ollama_server: the returned boolean,
how many probes (GET /api/tags attempts) were made, how many 1-second
sleeps were executed, and whether process.terminate() was called on the
way out. -/
structure PollResult where
  success : Bool
  probes : Nat
  sleeps : Nat
  terminated : Bool
deriving DecidableEq

/-- max_attempts = 45 in start_ollama_server. -/
def max_attempts : Nat := 45

/-- The body of the `for attempt in range(max_attempts)` loop of
start_ollama_server, one step per unit of fuel.  `o i` is the outcome of
the probe made on loop iteration `i`.  Exhausting the fuel is the
timeout path: print the error, process.terminate(), return False. -/
def pollAux (o : Nat → ProbeOutcome) : Nat → Nat → Nat → PollResult
  | 0, probes, sleeps => ⟨false, probes, sleeps, true⟩
  | fuel + 1, probes, sleeps =>
    match o probes with
    | .ok200 => ⟨true, probes + 1, sleeps, false⟩
    | .badStatus => pollAux o fuel (probes + 1) sleeps
    | .connErrProcDead => ⟨false, probes + 1, sleeps, false⟩
    | .connErrProcAlive => pollAux o fuel (probes + 1) (sleeps + 1)
    | .otherExc => pollAux o fuel (probes + 1) (sleeps + 1)

/-- The wait loop of start_ollama_server (lines 947-990 of the source),
started with max_attempts fuel and zero counters. -/
def start_ollama_server_poll (o : Nat → ProbeOutcome) : PollResult :=
  pollAux o max_attempts 0 0

/-- Number of iterations among the first n whose outcome executes the
1-second sleep. -/
def countSleeps (o : Nat → ProbeOutcome) : Nat → Nat
  | 0 => 0
  | n + 1 => countSleeps o n + (if (o n).sleepsOneSecond then 1 else 0)

theorem pollAux_zero (o : Nat → ProbeOutcome) (p s : Nat) :
    pollAux o 0 p s = ⟨false, p, s, true⟩ := rfl

theorem pollAux_succ (o : Nat → ProbeOutcome) (n p s : Nat) :
    pollAux o (n + 1) p s =
      match o p with
      | .ok200 => ⟨true, p + 1, s, false⟩
      | .badStatus => pollAux o n (p + 1) s
      | .connErrProcDead => ⟨false, p + 1, s, false⟩
      | .connErrProcAlive => pollAux o n (p + 1) (s + 1)
      | .otherExc => pollAux o n (p + 1) (s + 1) := rfl

theorem pollAux_probes_le (o : Nat → ProbeOutcome) (fuel : Nat) :
    ∀ p s, (pollAux o fuel p s).probes ≤ p + fuel := by
  induction fuel with
  | zero => intro p s; simp [pollAux_zero]
  | succ n ih =>
    intro p s
    rcases hc : o p with _ | _ | _ | _ | _ <;> simp only [pollAux_succ, hc]
    · simp
    · exact le_trans (ih (p + 1) s) (by omega)
    · simp
    · exact le_trans (ih (p + 1) (s + 1)) (by omega)
    · exact le_trans (ih (p + 1) (s + 1)) (by omega)

theorem pollAux_success_probe (o : Nat → ProbeOutcome) (fuel : Nat) :
    ∀ p s, (pollAux o fuel p s).success = true →
      p < (pollAux o fuel p s).probes ∧
      o ((pollAux o fuel p s).probes - 1) = ProbeOutcome.ok200 := by
  induction fuel with
  | zero => intro p s h; simp [pollAux_zero] at h
  | succ n ih =>
    intro p s
    rcases hc : o p with _ | _ | _ | _ | _ <;> simp only [pollAux_succ, hc]
    · intro _; simpa using hc
    · intro h
      obtain ⟨h1, h2⟩ := ih (p + 1) s h
      exact ⟨by omega, h2⟩
    · intro h; simp at h
    · intro h
      obtain ⟨h1, h2⟩ := ih (p + 1) (s + 1) h
      exact ⟨by omega, h2⟩
    · intro h
      obtain ⟨h1, h2⟩ := ih (p + 1) (s + 1) h
      exact ⟨by omega, h2⟩

theorem pollAux_terminated (o : Nat → ProbeOutcome) (fuel : Nat) :
    ∀ p s, (pollAux o fuel p s).terminated = true →
      (pollAux o fuel p s).probes = p + fuel ∧
      ∀ i, p ≤ i → i < p + fuel → (o i).keepsWaiting = true := by
  induction fuel with
  | zero =>
    intro p s _
    refine ⟨by simp [pollAux_zero], ?_⟩
    intro i h1 h2; omega
  | succ n ih =>
    intro p s
    rcases hc : o p with _ | _ | _ | _ | _ <;> simp only [pollAux_succ, hc]
    · intro h; simp at h
    · intro h
      obtain ⟨h1, h2⟩ := ih (p + 1) s h
      refine ⟨by omega, ?_⟩
      intro i hi1 hi2
      rcases Nat.eq_or_lt_of_le hi1 with he | hl
      · rw [← he, hc]; rfl
      · exact h2 i hl (by omega)
    · intro h; simp at h
    · intro h
      obtain ⟨h1, h2⟩ := ih (p + 1) (s + 1) h
      refine ⟨by omega, ?_⟩
      intro i hi1 hi2
      rcases Nat.eq_or_lt_of_le hi1 with he | hl
      · rw [← he, hc]; rfl
      · exact h2 i hl (by omega)
    · intro h
      obtain ⟨h1, h2⟩ := ih (p + 1) (s + 1) h
      refine ⟨by omega, ?_⟩
      intro i hi1 hi2
      rcases Nat.eq_or_lt_of_le hi1 with he | hl
      · rw [← he, hc]; rfl
      · exact h2 i hl (by omega)

theorem pollAux_sleeps (o : Nat → ProbeOutcome) (fuel : Nat) :
    ∀ p s, (pollAux o fuel p s).sleeps + countSleeps o p =
      s + countSleeps o (pollAux o fuel p s).probes := by
  induction fuel with
  | zero => intro p s; simp [pollAux_zero]
  | succ n ih =>
    intro p s
    have hstep : countSleeps o (p + 1) =
        countSleeps o p + (if (o p).sleepsOneSecond then 1 else 0) := rfl
    rcases hc : o p with _ | _ | _ | _ | _ <;> simp only [pollAux_succ, hc]
    · rw [hc] at hstep
      simp [ProbeOutcome.sleepsOneSecond] at hstep
      simp [hstep]
    · have h1 := ih (p + 1) s
      rw [hc] at hstep
      simp [ProbeOutcome.sleepsOneSecond] at hstep
      rw [hstep] at h1
      omega
    · rw [hc] at hstep
      simp [ProbeOutcome.sleepsOneSecond] at hstep
      simp [hstep]
    · have h1 := ih (p + 1) (s + 1)
      rw [hc] at hstep
      simp [ProbeOutcome.sleepsOneSecond] at hstep
      rw [hstep] at h1
      omega
    · have h1 := ih (p + 1) (s + 1)
      rw [hc] at hstep
      simp [ProbeOutcome.sleepsOneSecond] at hstep
      rw [hstep] at h1
      omega

/-- C2 counterexample.  On a run where every probe gets a non-200 HTTP
response, the loop makes all 45 probes and returns False without a
single 1-second sleep, contradicting "sleeping 1 second between failed
attempts"; and on a run where the first ConnectionError finds the child
process dead, the loop returns False without calling
process.terminate(), contradicting "returns False (after terminating
the process)". -/
theorem start_ollama_server_poll_cex :
    ((start_ollama_server_poll fun _ => ProbeOutcome.badStatus).probes = 45 ∧
     (start_ollama_server_poll fun _ => ProbeOutcome.badStatus).success = false ∧
     (start_ollama_server_poll fun _ => ProbeOutcome.badStatus).sleeps = 0) ∧
    ((start_ollama_server_poll fun _ => ProbeOutcome.connErrProcDead).success = false ∧
     (start_ollama_server_poll fun _ => ProbeOutcome.connErrProcDead).probes = 1 ∧
     (start_ollama_server_poll fun _ => ProbeOutcome.connErrProcDead).terminated = false) := by
  decide

/-- C2 as amended: the wait loop of start_ollama_server probes
GET /api/tags at most 45 times (max_attempts = 45) and returns False
whenever no attempt got HTTP 200; it sleeps 1 second after exactly the
failed attempts that raised (connection error with the child alive, or
any other exception) - a non-200 response retries without sleeping; and
process.terminate() is called exactly on the exhaustion path, i.e. only
when all 45 attempts were used up without the request returning 200 and
without the child process being found dead. -/
theorem start_ollama_server_poll_spec (o : Nat → ProbeOutcome) :
    (start_ollama_server_poll o).probes ≤ max_attempts ∧
    ((∀ i, i < (start_ollama_server_poll o).probes → o i ≠ ProbeOutcome.ok200) →
      (start_ollama_server_poll o).success = false) ∧
    ((start_ollama_server_poll o).terminated = true →
      (start_ollama_server_poll o).probes = max_attempts ∧
      ∀ i, i < max_attempts → (o i).keepsWaiting = true) ∧
    (start_ollama_server_poll o).sleeps =
      countSleeps o (start_ollama_server_poll o).probes := by
  unfold start_ollama_server_poll
  refine ⟨?_, ?_, ?_, ?_⟩
  · simpa using pollAux_probes_le o max_attempts 0 0
  · intro hno
    rcases hs : (pollAux o max_attempts 0 0).success with _ | _
    · rfl
    · obtain ⟨h1, h2⟩ := pollAux_success_probe o max_attempts 0 0 hs
      exact absurd h2 (hno _ (by omega))
  · intro ht
    obtain ⟨h1, h2⟩ := pollAux_terminated o max_attempts 0 0 ht
    refine ⟨by simpa using h1, ?_⟩
    intro i hi
    exact h2 i (by omega) (by omega)
  · have := pollAux_sleeps o max_attempts 0 0
    simpa [countSleeps] using this

/-- Witness for C2 (amended) on a run where every probe raises a
ConnectionError while the child stays alive: all hypotheses discharged
at this concrete probe stream. -/
theorem start_ollama_server_poll_spec_wit :
    (start_ollama_server_poll fun _ => ProbeOutcome.connErrProcAlive).probes = max_attempts ∧
    (start_ollama_server_poll fun _ => ProbeOutcome.connErrProcAlive).success = false := by
  have h := start_ollama_server_poll_spec fun _ => ProbeOutcome.connErrProcAlive
  refine ⟨(h.2.2.1 (by decide)).1, h.2.1 ?_⟩
  intro i _
  decide

/-- The GUI state of ChatGUI that the chat handlers touch: the chat log
(sender, message pairs appended by add_message), the text of the input
entry, the status label text and color, the enabled state of the send
and upload buttons, and the number of worker threads started by
send_message that have not yet run their completion callback. -/
structure GuiState where
  chatLog : List (String × String)
  inputField : String
  statusText : String
  statusColor : String
  sendEnabled : Bool
  uploadEnabled : Bool
  pendingWorkers : Nat
deriving DecidableEq

/-- The GUI state right after setup_gui: empty chat, empty input,
status "Ready" in green, both buttons enabled, no worker thread. -/
def initial_state : GuiState :=
  ⟨[], "", "Ready", "#00ff00", true, true, 0⟩

/-- ChatGUI.send_message: strip the input; on blank input return with no
effect; otherwise clear the entry, append the user message to the chat,
set the status to "Thinking...", disable the send and upload buttons and
start one worker thread running process_ai_response. -/
def send_message (s : GuiState) : GuiState :=
  let user_input := pyStrip s.inputField
  if user_input = "" then s
  else
    { s with
      inputField := "",
      chatLog := s.chatLog ++ [("You", user_input)],
      statusText := "Thinking...",
      statusColor := "#ffff00",
      sendEnabled := false,
      uploadEnabled := false,
      pendingWorkers := s.pendingWorkers + 1 }

/-- ChatGUI.display_ai_response, the callback scheduled on HTTP 200:
append the agent message, status "Ready" in green, re-enable both
buttons.  The worker that scheduled it is done. -/
def display_ai_response (s : GuiState) (response_text : String) : GuiState :=
  { s with
    chatLog := s.chatLog ++ [("Agent", response_text)],
    statusText := "Ready",
    statusColor := "#00ff00",
    sendEnabled := true,
    uploadEnabled := true,
    pendingWorkers := s.pendingWorkers - 1 }

/-- ChatGUI.display_error, the callback scheduled on any failure:
append a System message, status "Error" in red, re-enable both buttons.
The worker that scheduled it is done. -/
def display_error (s : GuiState) (error_msg : String) : GuiState :=
  { s with
    chatLog := s.chatLog ++ [("System", error_msg)],
    statusText := "Error",
    statusColor := "#ff4444",
    sendEnabled := true,
    uploadEnabled := true,
    pendingWorkers := s.pendingWorkers - 1 }

/-- Events driving the chat part of the GUI.  returnKey models the user
typing `typed` into the input entry and hitting Return: the entry is
never disabled and its Return binding always invokes send_message.
clickSend models a click on the send button, which tkinter delivers
only while the button is enabled.  workerOk and workerErr model a
started worker thread finishing and its scheduled callback running on
the UI thread. -/
inductive GuiEvent where
  | returnKey (typed : String)
  | clickSend
  | workerOk (text : String)
  | workerErr (msg : String)

/-- One GUI event step. -/
def gui_step (s : GuiState) : GuiEvent → GuiState
  | .returnKey typed => send_message { s with inputField := typed }
  | .clickSend => if s.sendEnabled then send_message s else s
  | .workerOk text => if 0 < s.pendingWorkers then display_ai_response s text else s
  | .workerErr msg => if 0 < s.pendingWorkers then display_error s msg else s

/-- Run a sequence of GUI events from a state. -/
def gui_run (s : GuiState) (events : List GuiEvent) : GuiState :=
  events.foldl gui_step s

/-- C4: the failing run.  Typing a message and hitting Return while a
request is already in flight starts a second worker thread, because the
Return binding on the input entry is not gated on the disabled send
button: after the trace [Return "hello", Return "again"] two workers
are pending even though the send button was disabled the whole time
after the first send. -/
theorem send_twice_while_pending :
    (gui_run initial_state [GuiEvent.returnKey "hello"]).sendEnabled = false ∧
    (gui_run initial_state [GuiEvent.returnKey "hello"]).pendingWorkers = 1 ∧
    (gui_run initial_state [GuiEvent.returnKey "hello", GuiEvent.returnKey "again"]).sendEnabled = false ∧
    (gui_run initial_state [GuiEvent.returnKey "hello", GuiEvent.returnKey "again"]).pendingWorkers = 2 := by
  decide

/-- C8: a blank submission is a no-op.  If the input entry holds only
whitespace (or nothing), send_message returns the state unchanged: the
chat log, the input field, the status label, both buttons and the set
of running workers are all exactly as before. -/
theorem send_message_blank_noop (s : GuiState)
    (h : pyStrip s.inputField = "") : send_message s = s := by
  simp [send_message, h]

/-- Witness for C8 at a concrete state whose input entry holds three
spaces. -/
theorem send_message_blank_noop_wit :
    send_message ⟨[], "   ", "Ready", "#00ff00", true, true, 0⟩ =
      ⟨[], "   ", "Ready", "#00ff00", true, true, 0⟩ :=
  send_message_blank_noop ⟨[], "   ", "Ready", "#00ff00", true, true, 0⟩ (by decide)

/-- Result of parsing the body of a 200 response in process_ai_response:
response.json() either yields a dict whose optional "response" field is
given, or raises (malformed body), in which case the surrounding
except-block catches the exception. -/
inductive JsonBody where
  | parsed (responseField : Option String)
  | invalid (errMsg : String)
deriving DecidableEq

/-- Observable outcome of the requests.post call in process_ai_response:
either an HTTP response with a status code and a body, or a raised
exception (connection refused, timeout after 120 s, and so on) with its
message. -/
inductive PostOutcome where
  | response (status : Nat) (body : JsonBody)
  | raised (errMsg : String)
deriving DecidableEq

/-- A GUI callback scheduled with root.after(0, ...) from the worker
thread. -/
inductive GuiCallback where
  | displayAiResponse (text : String)
  | displayError (msg : String)
deriving DecidableEq

/-- True when the scheduled callback is display_error. -/
def GuiCallback.isErrorDisplay : GuiCallback → Bool
  | .displayError _ => true
  | .displayAiResponse _ => false

/-- ChatGUI.process_ai_response as a function from the outcome of its
single requests.post call to the callback it schedules.  Totality of
this function is the "never raises" part of the claim: every branch,
including every exception, ends in a scheduled GUI callback.  On 200
the response text defaults to "No response received" when the field is
missing; a body that fails to parse raises inside the try-block and is
caught by the same generic except. -/
def process_ai_response : PostOutcome → GuiCallback
  | .response status body =>
    if status = 200 then
      match body with
      | .parsed r => .displayAiResponse (r.getD "No response received")
      | .invalid e => .displayError ("Error: " ++ e)
    else .displayError ("API error: " ++ toString status)
  | .raised e => .displayError ("Error: " ++ e)

/-- Python os.path.basename for the paths seen here: the part after the
last slash. -/
def pyBasename (p : String) : String := (pySplitChar p '/').getLastD ""

/-- Effect of ChatGUI.upload_file, as a function of the dialog result
(none when the user cancelled) and of the attempted file read
(Except.error carries the exception text).  A read error produces only
a messagebox.showerror dialog; nothing is added to the chat and no
state changes. -/
inductive UploadEffect where
  | noop
  | uploaded (chatEntry : String × String) (statusText statusColor : String)
      (storedContent : String)
  | errorDialog (title msg : String)
deriving DecidableEq

/-- ChatGUI.upload_file. -/
def upload_file (file_path : Option String) (read : Except String String) : UploadEffect :=
  match file_path with
  | none => .noop
  | some p =>
    match read with
    | .ok content =>
      .uploaded
        ("System", "📎 Uploaded file: " ++ pyBasename p ++
          "\nContent preview: " ++ content.take 200 ++ "...")
        ("File uploaded: " ++ pyBasename p) "#ffff00" content
    | .error e => .errorDialog "Upload Error" ("Could not read file: " ++ e)

/-- C3 counterexample: a 200 response whose body fails to parse as JSON
makes response.json() raise, so process_ai_response schedules
display_error, not display_ai_response - refuting "a 200 response
schedules display_ai_response". -/
theorem process_ai_response_200_bad_json_cex :
    process_ai_response (PostOutcome.response 200 (JsonBody.invalid "Expecting value")) =
      GuiCallback.displayError "Error: Expecting value" ∧
    (process_ai_response
      (PostOutcome.response 200 (JsonBody.invalid "Expecting value"))).isErrorDisplay = true := by
  decide

/-- C3 as amended: process_ai_response never raises (it is total on
every outcome of the request) and always ends in exactly one scheduled
GUI callback: a non-200 status schedules display_error with the status
code, any raised exception schedules display_error with the exception
text, a 200 response with a parseable body schedules
display_ai_response with its response field (default "No response
received"), and a 200 response whose body fails to parse is caught by
the same except-block and schedules display_error with the exception
text; a file-read error in upload_file likewise produces only an error
dialog. -/
theorem process_ai_response_dispatch :
    (∀ s b, s ≠ 200 → process_ai_response (PostOutcome.response s b) =
      GuiCallback.displayError ("API error: " ++ toString s)) ∧
    (∀ r, process_ai_response (PostOutcome.response 200 (JsonBody.parsed r)) =
      GuiCallback.displayAiResponse (r.getD "No response received")) ∧
    (∀ e, process_ai_response (PostOutcome.response 200 (JsonBody.invalid e)) =
      GuiCallback.displayError ("Error: " ++ e)) ∧
    (∀ e, process_ai_response (PostOutcome.raised e) =
      GuiCallback.displayError ("Error: " ++ e)) ∧
    (∀ p e, upload_file (some p) (Except.error e) =
      UploadEffect.errorDialog "Upload Error" ("Could not read file: " ++ e)) := by
  refine ⟨?_, ?_, ?_, ?_, ?_⟩
  · intro s b hs
    simp [process_ai_response, hs]
  · intro r; rfl
  · intro e; rfl
  · intro e; rfl
  · intro p e; rfl

/-- Witness for C3 (amended) at concrete inputs: a 500 status and a
failed read of a concrete path. -/
theorem process_ai_response_dispatch_wit :
    process_ai_response (PostOutcome.response 500 (JsonBody.parsed none)) =
      GuiCallback.displayError "API error: 500" ∧
    upload_file (some "/tmp/notes.txt") (Except.error "boom") =
      UploadEffect.errorDialog "Upload Error" "Could not read file: boom" := by
  constructor
  · exact process_ai_response_dispatch.1 500 (JsonBody.parsed none) (by decide)
  · exact process_ai_response_dispatch.2.2.2.2 "/tmp/notes.txt" "boom"

/-- The generate endpoint contacted by process_ai_response. -/
def generate_url : String := "http://localhost:11434/api/generate"

/-- The tags endpoint contacted by get_available_models and by
start_ollama_server. -/
def tags_url : String := "http://localhost:11434/api/tags"

/-- The observable shape of one HTTP request made through the requests
library: method, URL, the model / prompt / stream fields of the JSON
body when there is one, and the timeout passed to requests. -/
structure HttpRequest where
  method : String
  url : String
  bodyModel : Option String
  bodyPrompt : Option String
  bodyStream : Option Bool
  timeoutSec : Nat
deriving DecidableEq

/-- The single requests.post made by process_ai_response: POST
/api/generate with stream false and timeout 120 seconds. -/
def api_generate_request (model context : String) : HttpRequest :=
  ⟨"POST", generate_url, some model, some context, some false, 120⟩

/-- The requests.get made by get_available_models: GET /api/tags with
timeout 30. -/
def api_tags_request_models : HttpRequest :=
  ⟨"GET", tags_url, none, none, none, 30⟩

/-- The requests.get made by the already-running pre-check of
start_ollama_server: GET /api/tags with timeout 5. -/
def api_tags_request_precheck : HttpRequest :=
  ⟨"GET", tags_url, none, none, none, 5⟩

/-- The requests.get made by each probe of the start_ollama_server wait
loop: GET /api/tags with timeout 2. -/
def api_tags_request_poll : HttpRequest :=
  ⟨"GET", tags_url, none, none, none, 2⟩

/-- The list of requests one run of process_ai_response performs: the
function body contains exactly one call into the requests library. -/
def process_ai_response_requests (model context : String) : List HttpRequest :=
  [api_generate_request model context]

/-- Every call site of the requests library in the whole program: the
generate POST of process_ai_response and the three tags GETs. -/
def all_client_requests (model context : String) : List HttpRequest :=
  [api_generate_request model context, api_tags_request_models,
   api_tags_request_precheck, api_tags_request_poll]

/-- C5: every chat submission performs exactly one POST to
http://localhost:11434/api/generate with stream set to false and a
fixed 120-second deadline; model listing uses GET on
http://localhost:11434/api/tags; and every request the program makes
through the HTTP client goes to one of those two endpoints. -/
theorem client_requests_shape (model context : String) :
    process_ai_response_requests model context = [api_generate_request model context] ∧
    (process_ai_response_requests model context).length = 1 ∧
    (api_generate_request model context).method = "POST" ∧
    (api_generate_request model context).url = generate_url ∧
    (api_generate_request model context).bodyStream = some false ∧
    (api_generate_request model context).timeoutSec = 120 ∧
    api_tags_request_models.method = "GET" ∧
    api_tags_request_models.url = tags_url ∧
    ((all_client_requests model context).all fun rq =>
      rq.url == generate_url || rq.url == tags_url) = true := by
  exact ⟨rfl, rfl, rfl, rfl, rfl, rfl, rfl, rfl, rfl⟩

/-- Observable outcome of one attempt of get_available_models, i.e. of
one requests.get on /api/tags with timeout 30 followed by parsing:
ok carries the parsed models list of a 200 response (data.get with
default []); okBadJson is a 200 response whose response.json() raises;
badStatus is a non-200 status; connErr and timeoutErr are the two
retryable exceptions; otherExc is any other exception. -/
inductive TagsOutcome (α : Type) where
  | ok (models : List α)
  | okBadJson (errMsg : String)
  | badStatus (code : Nat)
  | connErr
  | timeoutErr
  | otherExc (errMsg : String)

/-- The two outcomes the loop retries on (with a 2-second sleep). -/
def TagsOutcome.isRetryable {α : Type} : TagsOutcome α → Bool
  | .connErr => true
  | .timeoutErr => true
  | _ => false

/-- The list the claim says an attempt yields: the models list of a
well-formed 200 response, and the empty list for every other outcome. -/
def tagsModelsSpec {α : Type} : TagsOutcome α → List α
  | .ok ms => ms
  | _ => []

/-- Result of get_available_models: the returned list, the number of
attempts made and the number of 2-second sleeps executed. -/
structure TagsResult (α : Type) where
  models : List α
  attempts : Nat
  sleeps : Nat

/-- max_retries = 3 in get_available_models. -/
def max_retries : Nat := 3

/-- The body of the `for attempt in range(max_retries)` loop of
get_available_models.  `o i` is the outcome of attempt `i`.  A 200
response returns its models list; a non-200 status, a body that fails
to parse, and any non-retryable exception print a message and break,
so the function returns []; ConnectionError and Timeout sleep 2 seconds
and retry while attempt < max_retries - 1 and otherwise break. -/
def gamAux {α : Type} (o : Nat → TagsOutcome α) : Nat → Nat → Nat → TagsResult α
  | 0, attempt, sleeps => ⟨[], attempt, sleeps⟩
  | fuel + 1, attempt, sleeps =>
    match o attempt with
    | .ok ms => ⟨ms, attempt + 1, sleeps⟩
    | .okBadJson _ => ⟨[], attempt + 1, sleeps⟩
    | .badStatus _ => ⟨[], attempt + 1, sleeps⟩
    | .connErr =>
      if attempt < max_retries - 1 then gamAux o fuel (attempt + 1) (sleeps + 1)
      else ⟨[], attempt + 1, sleeps⟩
    | .timeoutErr =>
      if attempt < max_retries - 1 then gamAux o fuel (attempt + 1) (sleeps + 1)
      else ⟨[], attempt + 1, sleeps⟩
    | .otherExc _ => ⟨[], attempt + 1, sleeps⟩

/-- get_available_models (lines 996-1032 of the source). -/
def get_available_models {α : Type} (o : Nat → TagsOutcome α) : TagsResult α :=
  gamAux o max_retries 0 0

theorem get_available_models_eq {α : Type} (o : Nat → TagsOutcome α) :
    get_available_models o =
      if (o 0).isRetryable then
        if (o 1).isRetryable then ⟨tagsModelsSpec (o 2), 3, 2⟩
        else ⟨tagsModelsSpec (o 1), 2, 1⟩
      else ⟨tagsModelsSpec (o 0), 1, 0⟩ := by
  rcases h0 : o 0 with ms | m | c | _ | _ | m <;>
  rcases h1 : o 1 with ms1 | m1 | c1 | _ | _ | m1 <;>
  rcases h2 : o 2 with ms2 | m2 | c2 | _ | _ | m2 <;>
    simp [get_available_models, gamAux, max_retries, tagsModelsSpec,
      TagsOutcome.isRetryable, h0, h1, h2]

/-- C6: get_available_models retries only within its fixed loop and
never propagates an error: it makes at most 3 attempts; it retries
(after a 2-second sleep) exactly on connection failures and timeouts,
so the number of sleeps is one less than the number of attempts and
every non-final attempt was such a failure; and for every outcome it
returns a list rather than raising - the parsed models list when the
deciding attempt got a well-formed 200 response, and the empty list for
every other outcome (unreachable server, non-200 status, malformed
response). -/
theorem get_available_models_spec {α : Type} (o : Nat → TagsOutcome α) :
    (get_available_models o).attempts ≤ max_retries ∧
    (get_available_models o).sleeps + 1 = (get_available_models o).attempts ∧
    (∀ i, i + 1 < (get_available_models o).attempts → (o i).isRetryable = true) ∧
    (get_available_models o).models =
      tagsModelsSpec (o ((get_available_models o).attempts - 1)) := by
  rw [get_available_models_eq]
  rcases hb0 : (o 0).isRetryable with _ | _
  · refine ⟨by simp [max_retries], by simp, ?_, by simp⟩
    intro i hi
    simp at hi
  · rcases hb1 : (o 1).isRetryable with _ | _
    · refine ⟨by simp [max_retries], by simp, ?_, by simp⟩
      intro i hi
      simp at hi
      have h0 : i = 0 := by omega
      subst h0
      exact hb0
    · refine ⟨by simp [max_retries], by simp, ?_, by simp⟩
      intro i hi
      simp at hi
      have h01 : i = 0 ∨ i = 1 := by omega
      rcases h01 with h | h <;> subst h
      · exact hb0
      · exact hb1

/-- Witness for C6 on a run where every attempt hits a ConnectionError:
the loop makes its maximal 3 attempts, sleeps twice, and still returns
the empty list. -/
theorem get_available_models_spec_wit :
    (get_available_models ((fun _ => TagsOutcome.connErr) : Nat → TagsOutcome Nat)).attempts
        ≤ max_retries ∧
    (((fun _ => TagsOutcome.connErr) : Nat → TagsOutcome Nat) 0).isRetryable = true := by
  have h := get_available_models_spec ((fun _ => TagsOutcome.connErr) : Nat → TagsOutcome Nat)
  exact ⟨h.1, h.2.2.1 0 (by decide)⟩

/-- True when p is a leading piece of l, character by character. -/
def charsStartWith : List Char → List Char → Bool
  | [], _ => true
  | _ :: _, [] => false
  | a :: as, b :: bs => a == b && charsStartWith as bs

/-- True when p occurs inside l, like the Python `in` test on strings. -/
def charsContainAux (p : List Char) : List Char → Bool
  | [] => charsStartWith p []
  | c :: cs => charsStartWith p (c :: cs) || charsContainAux p cs

/-- Python `pat in s` on strings: substring containment. -/
def strContains (s pat : String) : Bool := charsContainAux pat.data s.data

/-- Observable outcome of one subprocess.run on a GPU diagnostic tool:
it ran and produced an exit code and stdout text, the executable was
missing (or the call raised for another reason), or it hit the
10-second timeout (subprocess.TimeoutExpired). -/
inductive ToolRun where
  | ran (returncode : Int) (stdout : String)
  | raisesNotFound
  | raisesTimeout
deriving DecidableEq

/-- What one tool check inside detect_vram contributes: hit v means the
function returns v immediately; next means fall through to the next
tool; abort means the raised exception is caught by the outer except
clauses of detect_vram, which then return the still-zero vram_gb. -/
inductive StageResult where
  | hit (v : Rat)
  | next
  | abort
deriving DecidableEq

/-- First line of stdout.strip().split(chr(10)), empty when stdout is
blank. -/
def firstLine (out : String) : String :=
  (pySplitChar (pyStrip out) '\n').headD ""

/-- The NVIDIA check of detect_vram: on exit code 0 with a non-empty
first output line, int(first line) megabytes divided by 1024; a first
line that int() rejects raises ValueError, caught by the outer except
(abort); exit code nonzero or empty output falls through to the AMD
check; a missing tool or a timeout raises and aborts. -/
def nvidiaStage : ToolRun → StageResult
  | .raisesNotFound => .abort
  | .raisesTimeout => .abort
  | .ran rc out =>
    if rc = 0 then
      if firstLine out = "" then .next
      else
        match pyInt (firstLine out) with
        | some mb => .hit ((mb : Rat) / 1024)
        | none => .abort
    else .next

/-- The token scan of the AMD branch: on the whitespace-split parts of
a line, the first all-digit token immediately preceded by a "Total"
token.  -/
def amdTotalToken : List String → Option Nat
  | [] => none
  | [_] => none
  | a :: b :: rest =>
    if a == "Total" && pyIsDigit b then digitsToNat b.data
    else amdTotalToken (b :: rest)

/-- One line of the rocm-smi output scan: only lines containing both
"Total" and "MB" are searched for the token after "Total". -/
def amdScanLine (line : String) : Option Nat :=
  if strContains line "Total" && strContains line "MB" then
    amdTotalToken (pySplitWs line)
  else none

/-- The whole rocm-smi stdout scan: first line that yields a token. -/
def amdScan (out : String) : Option Nat :=
  (pySplitChar out '\n').findSome? amdScanLine

/-- The AMD check of detect_vram: on exit code 0, the scanned megabyte
token divided by 1024 when the scan finds one, else fall through; exit
code nonzero falls through; a missing tool or timeout aborts. -/
def amdStage : ToolRun → StageResult
  | .raisesNotFound => .abort
  | .raisesTimeout => .abort
  | .ran rc out =>
    if rc = 0 then
      match amdScan out with
      | some mb => .hit ((mb : Rat) / 1024)
      | none => .next
    else .next

/-- Python part.replace(chr(46), empty).isdigit(): digits and dots only,
with at least one digit. -/
def floatCandidate (t : String) : Bool :=
  pyIsDigit (String.mk (t.data.filter fun c => !(c == '.')))

/-- Python float() on a candidate token: at most one dot, else
ValueError (none). -/
def pyFloat (t : String) : Option Rat :=
  match pySplitChar t '.' with
  | [w] => (digitsToNat w.data).map fun n => (n : Rat)
  | [w, f] =>
    match (if w.data.isEmpty then some 0 else digitsToNat w.data),
        (if f.data.isEmpty then some 0 else digitsToNat f.data) with
    | some a, some b => some ((a : Rat) + (b : Rat) / (10 : Rat) ^ f.length)
    | _, _ => none
  | _ => none

/-- First candidate token of a line and its parse: none when the line
has no candidate token (vram_gb stays 0), some none when float() raises
on it (caught by the per-line except, line skipped), some (some v) when
it parses to v. -/
def firstFloatCandidate (parts : List String) : Option (Option Rat) :=
  parts.findSome? fun t => if floatCandidate t then some (pyFloat t) else none

/-- One line of the system_profiler scan on macOS: lines containing
"VRAM" or "Memory", a "GB" number taken as is, otherwise an "MB" number
divided by 1024, returned only when positive. -/
def appleScanLine (line : String) : Option Rat :=
  if strContains line "VRAM" || strContains line "Memory" then
    if strContains line "GB" then
      match firstFloatCandidate (pySplitWs line) with
      | some (some v) => if 0 < v then some v else none
      | _ => none
    else if strContains line "MB" then
      match firstFloatCandidate (pySplitWs line) with
      | some (some v) => if 0 < v / 1024 then some (v / 1024) else none
      | _ => none
    else none
  else none

/-- The whole system_profiler stdout scan. -/
def appleScan (out : String) : Option Rat :=
  (pySplitChar out '\n').findSome? appleScanLine

/-- The Apple check of detect_vram, reached only when
sys.platform == "darwin": its subprocess call sits in its own
try/except whose handler passes, so a raised call just falls through;
the exit code is never inspected. -/
def appleStage (isDarwin : Bool) (r : ToolRun) : StageResult :=
  if isDarwin then
    match r with
    | .ran _ out =>
      match appleScan out with
      | some v => .hit v
      | none => .next
    | .raisesNotFound => .next
    | .raisesTimeout => .next
  else .next

/-- SystemChecker.detect_vram (lines 108-180 of the source): try the
NVIDIA tool, then the AMD tool, then (on macOS) system_profiler, in
that order; a hit returns its value, an abort returns the still-zero
vram_gb, and falling through everything returns 0 (CPU-only). -/
def detect_vram (nvidia amd apple : ToolRun) (isDarwin : Bool) : Rat :=
  match nvidiaStage nvidia with
  | .hit v => v
  | .abort => 0
  | .next =>
    match amdStage amd with
    | .hit v => v
    | .abort => 0
    | .next =>
      match appleStage isDarwin apple with
      | .hit v => v
      | .next => 0
      | .abort => 0

/-- C7: detect_vram scans the vendor tools in the fixed order
nvidia-smi, rocm-smi, then (macOS only) system_profiler.  When
nvidia-smi exits 0 with a non-empty first output line that parses as an
integer megabyte count, the result is that count divided by 1024,
whatever the other tools would say.  When the NVIDIA check falls
through and rocm-smi exits 0 with a line containing both "Total" and
"MB" whose first integer token right after a "Total" token is mb, the
result is mb divided by 1024.  When no tool reports a GPU (every check
falls through), the result is 0. -/
theorem detect_vram_spec (nvidia amd apple : ToolRun) (darwin : Bool) :
    (∀ out mb, nvidia = ToolRun.ran 0 out → firstLine out ≠ "" →
      pyInt (firstLine out) = some mb →
      detect_vram nvidia amd apple darwin = (mb : Rat) / 1024) ∧
    (∀ out mb, nvidiaStage nvidia = StageResult.next → amd = ToolRun.ran 0 out →
      amdScan out = some mb →
      detect_vram nvidia amd apple darwin = (mb : Rat) / 1024) ∧
    (nvidiaStage nvidia = StageResult.next → amdStage amd = StageResult.next →
      appleStage darwin apple = StageResult.next →
      detect_vram nvidia amd apple darwin = 0) := by
  refine ⟨?_, ?_, ?_⟩
  · intro out mb he hne hp
    subst he
    have hs : nvidiaStage (ToolRun.ran 0 out) = StageResult.hit ((mb : Rat) / 1024) := by
      simp [nvidiaStage, hne, hp]
    simp [detect_vram, hs]
  · intro out mb hn he hp
    subst he
    have hs : amdStage (ToolRun.ran 0 out) = StageResult.hit ((mb : Rat) / 1024) := by
      simp [amdStage, hp]
    simp [detect_vram, hn, hs]
  · intro h1 h2 h3
    simp [detect_vram, h1, h2, h3]

/-- Witness for C7 on a concrete run: nvidia-smi exits 0 printing 8192,
the other tools report nothing, platform is not macOS; the result is
8192 / 1024 = 8 GB. -/
theorem detect_vram_spec_wit :
    detect_vram (ToolRun.ran 0 "8192") (ToolRun.ran 1 "") (ToolRun.ran 1 "") false =
      ((8192 : Int) : Rat) / 1024 := by
  have h := detect_vram_spec (ToolRun.ran 0 "8192") (ToolRun.ran 1 "") (ToolRun.ran 1 "") false
  exact h.1 "8192" 8192 rfl (by decide) (by decide)

/-- The Python values that ever appear in ChatGUI.config: color and
text entries are strings, and the two font entries are (family, size)
tuples of a string and an int, which apply_config rebuilds as tuples;
after a trip through chat_config.json they come back as two-element
lists, hence the fourth constructor. -/
inductive PyVal where
  | str (s : String)
  | int (n : Int)
  | strIntTuple (family : String) (size : Int)
  | strIntList (family : String) (size : Int)
deriving DecidableEq

/-- What json.dump followed by json.load does to one config value:
strings and ints survive, and a Python tuple is serialized as a JSON
array, which json.load parses back as a Python list. -/
def jsonRoundTripVal : PyVal → PyVal
  | .str s => .str s
  | .int n => .int n
  | .strIntTuple a b => .strIntList a b
  | .strIntList a b => .strIntList a b

/-- A config dict, as a lookup function from key to stored value. -/
def Config : Type := String → Option PyVal

/-- The default self.config set in ChatGUI.__init__ before load_config
runs. -/
def default_config : Config := fun k =>
  if k = "user_font" then some (.strIntTuple "Arial" 12)
  else if k = "user_color" then some (.str "#00ff00")
  else if k = "agent_font" then some (.strIntTuple "Arial" 12)
  else if k = "agent_color" then some (.str "#ff4444")
  else if k = "bg_color" then some (.str "#2b2b2b")
  else if k = "text_color" then some (.str "#ffffff")
  else none

/-- ChatGUI.save_config: the content of chat_config.json after
json.dump(self.config), read back by json.load - every value as its
JSON round-trip image. -/
def save_config (c : Config) : Config := fun k => (c k).map jsonRoundTripVal

/-- Python dict.update: keys present in the loaded file override the
base config, all other keys keep their base value. -/
def dict_update (base loaded : Config) : Config := fun k =>
  match loaded k with
  | some v => some v
  | none => base k

/-- ChatGUI.load_config on a fresh default config: when
chat_config.json exists, json.load it and self.config.update it into
the defaults; otherwise keep the defaults. -/
def load_config (fileExists : Bool) (file : Config) : Config :=
  if fileExists then dict_update default_config file else default_config

/-- save_config then load_config on a fresh default config: the file
exists after saving. -/
def save_then_load (c : Config) : Config := load_config true (save_config c)

/-- C9 counterexample: the claim fails already on the default config.
Its user_font entry is the tuple ("Arial", 12); after save_config and
load_config the entry is the list ["Arial", 12], and a Python tuple
never equals a list, so the restored config is not equal to the one
saved. -/
theorem save_load_round_trip_cex :
    save_then_load default_config "user_font" =
      some (PyVal.strIntList "Arial" 12) ∧
    default_config "user_font" = some (PyVal.strIntTuple "Arial" 12) ∧
    (save_then_load default_config "user_font" == default_config "user_font") = false := by
  exact ⟨by decide, by decide, by decide⟩

/-- C9 as amended: the save/load round trip restores the configuration
only up to JSON value conversion: every key stored in the file comes
back with the JSON image of its value - strings and ints unchanged,
font (family, size) tuples as [family, size] lists - and keys absent
from the file keep their defaults. -/
theorem save_load_round_trip_json (c : Config) (k : String) :
    (∀ v, c k = some v → save_then_load c k = some (jsonRoundTripVal v)) ∧
    (c k = none → save_then_load c k = default_config k) := by
  constructor
  · intro v hv
    simp [save_then_load, load_config, dict_update, save_config, hv]
  · intro hv
    simp [save_then_load, load_config, dict_update, save_config, hv]

/-- Witness for C9 (amended) at the default config and the user_color
key, whose stored string survives the round trip unchanged. -/
theorem save_load_round_trip_json_wit :
    save_then_load default_config "user_color" =
      some (jsonRoundTripVal (PyVal.str "#00ff00")) :=
  (save_load_round_trip_json default_config "user_color").1
    (PyVal.str "#00ff00") (by decide)

end MichaelAI
